import Mathlib

/-!
Verification development for the file-cache API (src/main.py).

The Python program is shallowly embedded as pure Lean functions:

* Wall-clock time is a monotone `Nat` (seconds); `CACHE_TIME` is the
  5-minute TTL expressed in seconds.
* The file system is an explicit association list from paths to
  `FileContent`.  A path absent from the list is a file that does not
  exist / cannot be opened, which is how hashing and reading failures
  (Python exceptions) arise in the model.
* Python `dict`s (`cache.data`, `cache.last_checked`, `cache.file_hashes`,
  `FILE_CONFIG`) are association lists with update-or-append assignment.
* `pandas` is a black-box reader: a file's parsed tabular content is part
  of `FileContent` (`sheets`, the named sections; a CSV/TXT file carries a
  single table as its first entry).  Cell values are an inductive `Value`
  type; finite numerics are modelled as integers, while the reader's
  null-like sentinels (`pd.NA`, `NaN`, `NaT`, `inf`, `-inf`) and native
  datetimes are distinct constructors, since only their identity matters.
* MD5 is modelled by an abstract injective encoding of the byte stream
  (`md5Hex`); only equality of hashes is ever used.
* Exceptions are `Except` values.  A FastAPI `HTTPException(404)`,
  an uncaught `KeyError`, and the handler's catch-all
  `HTTPException(500, ...)` are distinguished by `ApiError`.
-/

/-- Association-list lookup, the model of Python `dict` indexing /
`dict.get`. -/
def alget {α : Type} (l : List (String × α)) (k : String) : Option α :=
  match l with
  | [] => none
  | (k1, v) :: rest => if k1 = k then some v else alget rest k

/-- Association-list assignment, the model of Python `dict[k] = v`
(update in place if present, append otherwise). -/
def alset {α : Type} (l : List (String × α)) (k : String) (v : α) :
    List (String × α) :=
  match l with
  | [] => [(k, v)]
  | (k1, v1) :: rest =>
      if k1 = k then (k1, v) :: rest else (k1, v1) :: alset rest k v

/-- A wall-clock instant rendered by `strftime('%Y-%m-%d %H:%M:%S')`. -/
structure DateTime where
  year : Nat
  month : Nat
  day : Nat
  hour : Nat
  minute : Nat
  second : Nat
deriving DecidableEq, Repr

/-- Zero-padding to two digits, as `%m`, `%d`, `%H`, `%M`, `%S` do. -/
def pad2 (n : Nat) : String :=
  if n < 10 then "0" ++ toString n else toString n

/-- Zero-padding to four digits, as `%Y` does. -/
def pad4 (n : Nat) : String :=
  if n < 10 then "000" ++ toString n
  else if n < 100 then "00" ++ toString n
  else if n < 1000 then "0" ++ toString n
  else toString n

/-- The fixed textual pattern `YYYY-MM-DD HH:MM:SS` used by
`df[col].dt.strftime('%Y-%m-%d %H:%M:%S')` in `_load_file_data`. -/
def strftimeYmdHMS (t : DateTime) : String :=
  pad4 t.year ++ "-" ++ pad2 t.month ++ "-" ++ pad2 t.day ++ " " ++
    pad2 t.hour ++ ":" ++ pad2 t.minute ++ ":" ++ pad2 t.second

/-- A cell value as produced by the pandas readers.  `na`, `nan`, `naT`,
`inf`, `negInf` are the reader's null-like sentinels; `dt` is a native
temporal value; `null` is Python `None`, the canonical null. -/
inductive Value where
  | str (s : String)
  | num (n : Int)
  | bool (b : Bool)
  | na
  | nan
  | naT
  | inf
  | negInf
  | dt (t : DateTime)
  | null
deriving DecidableEq, Repr

/-- Column dtype, as far as `select_dtypes(include=['datetime'])` can see:
a column either has a datetime64 dtype or it does not. -/
inductive DType where
  | datetime
  | other
deriving DecidableEq, Repr

/-- One named, typed column of a pandas DataFrame. -/
structure Column where
  name : String
  dtype : DType
  values : List Value
deriving DecidableEq, Repr

/-- A pandas DataFrame, column-major (all columns have equal length in
any reader-produced frame). -/
structure DataFrame where
  cols : List Column
deriving DecidableEq, Repr

/-- `len(df)`: the number of rows. -/
def DataFrame.nrows (df : DataFrame) : Nat :=
  match df.cols with
  | [] => 0
  | c :: _ => c.values.length

/-- A record row, as produced by `df.to_dict(orient="records")`. -/
abbrev Rec := List (String × Value)

/-- `df.to_dict(orient="records")`: row `i` maps each column name to its
`i`-th value. -/
def DataFrame.toRecords (df : DataFrame) : List Rec :=
  (List.range df.nrows).map fun i =>
    df.cols.map fun c => (c.name, c.values.getD i Value.null)

/-- One cell of `df.replace([pd.NA, pd.NaT, float('nan'), float('inf')],
None)`: exactly the four listed sentinels become `None`.  `float('-inf')`
is not in the list and is left unchanged. -/
def replaceNulls (v : Value) : Value :=
  match v with
  | Value.na => Value.null
  | Value.naT => Value.null
  | Value.nan => Value.null
  | Value.inf => Value.null
  | v => v

/-- `df.replace([...], None)` applied cell-wise. -/
def replaceDf (df : DataFrame) : DataFrame :=
  DataFrame.mk (df.cols.map fun c =>
    Column.mk c.name c.dtype (c.values.map replaceNulls))

/-- One cell of `df[col].dt.strftime('%Y-%m-%d %H:%M:%S')`: native
temporal values become the fixed-pattern string. -/
def strftimeCell (v : Value) : Value :=
  match v with
  | Value.dt t => Value.str (strftimeYmdHMS t)
  | v => v

/-- The `for col in df.select_dtypes(include=['datetime']).columns:
df[col] = df[col].dt.strftime(...)` loop: datetime-dtyped columns have
their temporal values rendered to the fixed pattern. -/
def formatDatetimeCols (df : DataFrame) : DataFrame :=
  DataFrame.mk (df.cols.map fun c =>
    if c.dtype = DType.datetime then
      Column.mk c.name c.dtype (c.values.map strftimeCell)
    else c)

/-- The normalization performed in `_load_file_data` lines 163-166:
sentinel replacement, then datetime formatting. -/
def normalizeDf (df : DataFrame) : DataFrame :=
  formatDatetimeCols (replaceDf df)

/-- On-disk content of one file: its raw bytes (for hashing and size)
and its parsed tabular content as the black-box readers would deliver it
(named sheets for a workbook; one table for CSV/TXT). -/
structure FileContent where
  bytes : List Nat
  sheets : List (String × DataFrame)
deriving DecidableEq, Repr

/-- The world outside the process: the file system and the clock. -/
structure World where
  fs : List (String × FileContent)
  now : Nat
deriving DecidableEq, Repr

/-- Abstract stand-in for the MD5 hex digest: an injective encoding of
the byte stream.  The program only ever compares digests for equality. -/
def md5Hex (b : List Nat) : Nat :=
  b.foldl (fun h x => h * 257 + x + 1) 7

/-- `CACHE_TIME = timedelta(minutes=5)`, in seconds. -/
def CACHE_TIME : Nat := 5 * 60

/-- The `metadata` dict built in `_load_file_data`.  `last_updated` is
the `Nat` clock instant (`datetime.now().isoformat()` in the source);
`file_size` is `os.path.getsize(filepath)` in bytes (the source renders
it as an MB string, which is pure formatting). -/
structure Metadata where
  last_updated : Nat
  file_size : Nat
  row_count : Nat
deriving DecidableEq, Repr

/-- The value stored in `cache.data[filepath]`: the record list under
key `"data"` plus the `"metadata"` dict. -/
structure FileData where
  data : List Rec
  metadata : Metadata
deriving DecidableEq, Repr

/-- `FileCache.__init__`: three dicts, keyed by resolved file path. -/
structure FileCache where
  data : List (String × FileData)
  last_checked : List (String × Nat)
  file_hashes : List (String × Nat)
deriving DecidableEq, Repr

/-- `FileCache._calculate_file_hash`: open the file, hash its bytes.
`none` is the `except` case (file absent / unreadable). -/
def calculate_file_hash (w : World) (filepath : String) : Option Nat :=
  (alget w.fs filepath).map fun fc => md5Hex fc.bytes

/-- `FileCache.needs_refresh` (src/main.py lines 35-47): no entry ⇒
`True`; within the TTL ⇒ `False` without touching the file system; TTL
elapsed ⇒ re-hash and compare with `self.file_hashes.get(filepath)`,
returning `True` when hashing raises. -/
def FileCache.needs_refresh (c : FileCache) (w : World) (filepath : String) :
    Bool :=
  match alget c.last_checked filepath with
  | none => true
  | some t =>
    if w.now - t > CACHE_TIME then
      match calculate_file_hash w filepath with
      | some h => decide (some h ≠ alget c.file_hashes filepath)
      | none => true
    else false

/-- `FileCache.update_cache` (src/main.py lines 57-61), with the
source's mutation order made explicit: `self.data` and
`self.last_checked` are assigned first; only then is
`_calculate_file_hash` called.  The `Bool` is `false` when hashing
raises, in which case the exception propagates with the first two dicts
already mutated. -/
def FileCache.update_cache (c : FileCache) (w : World) (filepath : String)
    (d : FileData) : Bool × FileCache :=
  let c1 : FileCache :=
    FileCache.mk (alset c.data filepath d)
      (alset c.last_checked filepath w.now) c.file_hashes
  match calculate_file_hash w filepath with
  | some h =>
      (true, FileCache.mk c1.data c1.last_checked
        (alset c1.file_hashes filepath h))
  | none => (false, c1)

/-- File kinds of `FILE_CONFIG` entries (`"excel"`, `"csv"`, `"txt"`). -/
inductive FileKind where
  | excel
  | csv
  | txt
deriving DecidableEq, Repr

/-- One `FILE_CONFIG` entry: filename, kind, optional required sheet,
and the delimited-text options (passed verbatim to the black-box
reader). -/
structure FileConfigEntry where
  filename : String
  type : FileKind
  required_sheet : Option String
  delimiter : Option String
  encoding : Option String
  on_bad_lines : Option String
deriving DecidableEq, Repr

/-- `FILE_CONFIG` (src/main.py lines 66-98), in source order. -/
def FILE_CONFIG : List (String × FileConfigEntry) :=
  [ ("Base_GDM", ⟨"Base_GDM.xlsx", FileKind.excel, none, none, none, none⟩),
    ("BASE_Grupo_VD", ⟨"BASE_Grupo_VD.xlsx", FileKind.excel, none, none, none, none⟩),
    ("Base_IAV", ⟨"Base_IAV.xlsx", FileKind.excel, none, none, none, none⟩),
    ("Base_ID", ⟨"Base_ID.xlsx", FileKind.excel, some "RESUMO", none, none, none⟩),
    ("Base_INE", ⟨"Base_INE.xlsx", FileKind.excel, some "RESUMO", none, none, none⟩),
    ("BASE_MOV", ⟨"BASE_MOV.xlsx", FileKind.excel, none, none, none, none⟩),
    ("Base_MOV_AA", ⟨"Base_MOV_AA.xlsx", FileKind.excel, none, none, none, none⟩),
    ("Base_MOV_ANT", ⟨"Base_MOV_ANT.xlsx", FileKind.excel, none, none, none, none⟩),
    ("BASE_PDV", ⟨"BASE_PDV.xlsx", FileKind.excel, none, none, none, none⟩),
    ("Base_PROD", ⟨"Base_PROD.xlsx", FileKind.excel, none, none, none, none⟩),
    ("Base_TEND", ⟨"Base_TEND.xlsx", FileKind.excel, none, none, none, none⟩),
    ("PRODUTOS", ⟨"PRODUTOS.csv", FileKind.csv, none, some ";", some "ISO-8859-1", some "skip"⟩),
    ("BASE_MKP_VD", ⟨"BASE_MKP_VD.txt", FileKind.txt, none, some "\t", some "utf-8", none⟩),
    ("BASE_MKP_VD_AA", ⟨"BASE_MKP_VD_AA.txt", FileKind.txt, none, some "|", some "ISO-8859-1", some "skip"⟩) ]

/-- `BASE_PATHS` (src/main.py lines 21-24): candidate roots, in order. -/
def BASE_PATHS : List String :=
  ["G:\\Meu Drive\\Arqs.Dia", "H:\\Meu Drive\\Arqs.Dia"]

/-- `os.path.join` on Windows paths. -/
def joinPath (dir filename : String) : String := dir ++ "\\" ++ filename

/-- The loop body of `find_file`: try each root in order, returning the
first candidate path that exists. -/
def find_file_in (w : World) (paths : List String) (filename : String) :
    Option String :=
  match paths with
  | [] => none
  | path :: rest =>
    let filepath := joinPath path filename
    if (alget w.fs filepath).isSome then some filepath
    else find_file_in w rest filename

/-- `find_file` (src/main.py lines 101-107). -/
def find_file (w : World) (filename : String) : Option String :=
  find_file_in w BASE_PATHS filename

/-- Failures of `safe_read_file`.  `missingSheet` is the
`ValueError("Guia ... não encontrada. Disponíveis: ...")` raised when a
required sheet is absent; it carries the required name and the list of
available sheet names joined into the message.  `ioError` is any other
reader/IO failure (file vanished, empty workbook, parse error). -/
inductive ReadError where
  | missingSheet (required : String) (available : List String)
  | ioError
deriving DecidableEq, Repr

/-- `safe_read_file` (src/main.py lines 109-138).  Excel with a
`required_sheet`: enumerate `wb.sheetnames`; raise listing the available
names when absent, else read exactly that sheet.  Excel without:
read the first/default sheet.  CSV/TXT: the black-box delimited read of
the file's single table. -/
def safe_read_file (w : World) (filepath : String) (config : FileConfigEntry) :
    Except ReadError DataFrame :=
  match alget w.fs filepath with
  | none => Except.error ReadError.ioError
  | some content =>
    match config.type with
    | FileKind.excel =>
      match config.required_sheet with
      | some sheet =>
        match alget content.sheets sheet with
        | some df => Except.ok df
        | none =>
            Except.error
              (ReadError.missingSheet sheet (content.sheets.map Prod.fst))
      | none =>
        match content.sheets with
        | [] => Except.error ReadError.ioError
        | (_, df) :: _ => Except.ok df
    | _ =>
      match content.sheets with
      | [] => Except.error ReadError.ioError
      | (_, df) :: _ => Except.ok df

/-- Exceptions escaping `_load_file_data`.  `keyError` is the uncaught
`KeyError` of `FILE_CONFIG[file_id]`; `httpNotFound` is the
`HTTPException(404, "Arquivo não encontrado")`; `readError` wraps a
`safe_read_file` failure; `hashError` is a hashing failure inside
`update_cache`; `cacheMiss` is the `KeyError` of `cache.data[filepath]`
on the not-stale branch. -/
inductive LoadError where
  | keyError (key : String)
  | httpNotFound
  | readError (e : ReadError)
  | hashError
  | cacheMiss
deriving DecidableEq, Repr

/-- `os.path.getsize(filepath)`, in bytes, defaulting never matters on
the paths where it is used (the file was just read successfully). -/
def getsize (w : World) (filepath : String) : Nat :=
  ((alget w.fs filepath).map fun fc => fc.bytes.length).getD 0

/-- `_load_file_data` (src/main.py lines 151-181), as a state
transformer on the cache.  Returns the Python `(refreshed, data)` pair
on success (`refreshed = True` exactly when the file was re-read), and
the cache state after the call — unchanged on every failure except a
`hashError`, where `update_cache` has already mutated `data` and
`last_checked`. -/
def _load_file_data (w : World) (c : FileCache) (file_id : String) :
    Except LoadError (Bool × FileData) × FileCache :=
  match alget FILE_CONFIG file_id with
  | none => (Except.error (LoadError.keyError file_id), c)
  | some config =>
    match find_file w config.filename with
    | none => (Except.error LoadError.httpNotFound, c)
    | some filepath =>
      if c.needs_refresh w filepath then
        match safe_read_file w filepath config with
        | Except.error e => (Except.error (LoadError.readError e), c)
        | Except.ok df0 =>
          let df := normalizeDf df0
          let d : FileData :=
            FileData.mk df.toRecords
              (Metadata.mk w.now (getsize w filepath) df.nrows)
          match c.update_cache w filepath d with
          | (true, c2) => (Except.ok (true, d), c2)
          | (false, c2) => (Except.error LoadError.hashError, c2)
      else
        match alget c.data filepath with
        | some d => (Except.ok (false, d), c)
        | none => (Except.error LoadError.cacheMiss, c)

/-- `refresh_file` (src/main.py lines 183-187): acknowledge at once and
schedule `_load_file_data` as a background task.  Sequentially, the
acknowledgement is computed from the pre-call state and the scheduled
task then runs; its failures are only logged, never surfaced. -/
def refresh_file (w : World) (c : FileCache) (file_id : String) :
    String × FileCache :=
  ("Atualização de " ++ file_id ++ " em andamento",
    (_load_file_data w c file_id).2)

/-- Failures of the `/data/{file_id}` handler, as FastAPI reports them:
`keyError` is the uncaught `KeyError` of `FILE_CONFIG[file_id]` at line
208 (a generic 500 Internal Server Error, not an `HTTPException`);
`http404` is the `HTTPException(404)` raised before the `try` block;
`http500` is the catch-all `HTTPException(500, f"Erro: ...")` wrapping
any exception raised inside the `try`. -/
inductive ApiError where
  | keyError (key : String)
  | http404
  | http500 (e : LoadError)
deriving DecidableEq, Repr

/-- `df.head(n)`: the first `n` rows when `n ≥ 0`; all but the last
`|n|` rows when `n < 0` (Python slice `df[:n]`). -/
def pdHead (n : Int) (l : List Rec) : List Rec :=
  if 0 ≤ n then l.take n.toNat else l.take (l.length - (-n).toNat)

/-- The windowing of `get_file_data` lines 217-220: `df.iloc[skiprows:]`
when `skiprows > 0`, then `df.head(nrows)` when `nrows` is given. -/
def pdWindow (skiprows : Int) (nrows : Option Int) (l : List Rec) :
    List Rec :=
  let l1 := if 0 < skiprows then l.drop skiprows.toNat else l
  match nrows with
  | some n => pdHead n l1
  | none => l1

/-- The JSON body returned by `get_file_data`: the windowed records and
the cached entry's metadata. -/
structure ApiResponse where
  data : List Rec
  metadata : Metadata
deriving DecidableEq, Repr

/-- `get_file_data` (src/main.py lines 196-232), JSON branch
(`as_excel=False`, which only changes the serialization of the same
windowed records).  FastAPI injects a real `BackgroundTasks`, so a
background `_load_file_data` is always scheduled; it runs only after
the response is sent, so the response and the returned cache state
come from the *inline* `await _load_file_data(file_id)` at line 214.
The `pd.DataFrame(data["data"])` round-trip before windowing is
modelled as the identity on the record list. -/
def get_file_data (w : World) (c : FileCache) (file_id : String)
    (skiprows : Int) (nrows : Option Int) :
    Except ApiError ApiResponse × FileCache :=
  match alget FILE_CONFIG file_id with
  | none => (Except.error (ApiError.keyError file_id), c)
  | some config =>
    match find_file w config.filename with
    | none => (Except.error ApiError.http404, c)
    | some _ =>
      match _load_file_data w c file_id with
      | (Except.error e, c2) => (Except.error (ApiError.http500 e), c2)
      | (Except.ok (_, d), c2) =>
          (Except.ok (ApiResponse.mk (pdWindow skiprows nrows d.data)
            d.metadata), c2)

/-- Cache well-formedness: every stored entry's `row_count` is the
length of its record list (established by every successful load). -/
def CacheWF (c : FileCache) : Prop :=
  ∀ p d, alget c.data p = some d → d.metadata.row_count = d.data.length

/-- A reader-produced DataFrame is well formed when datetime64 columns
hold only temporal values or `NaT`, and non-datetime columns hold no
native temporal value (pandas infers datetime64 exactly for such
columns). -/
def WellFormedDf (df : DataFrame) : Prop :=
  ∀ col ∈ df.cols,
    (col.dtype = DType.datetime →
      ∀ v ∈ col.values, (∃ t, v = Value.dt t) ∨ v = Value.naT) ∧
    (col.dtype = DType.other → ∀ v ∈ col.values, ∀ t, v ≠ Value.dt t)

deriving instance DecidableEq for Except

/-! ### Concrete fixtures -/

/-- A small reader-produced table: one non-datetime column `x` with
three numeric rows. -/
def dfSample : DataFrame :=
  DataFrame.mk [Column.mk "x" DType.other
    [Value.num 1, Value.num 2, Value.num 3]]

/-- A workbook file whose bytes are `[10, 20, 30]` and whose single
sheet holds `dfSample`. -/
def fcSample : FileContent := FileContent.mk [10, 20, 30] [("Sheet1", dfSample)]

/-- The resolved path of `Base_GDM.xlsx` under the first root. -/
def pathGDM : String := "G:\\Meu Drive\\Arqs.Dia\\Base_GDM.xlsx"

/-- A world where `Base_GDM.xlsx` exists under the first root. -/
def wSample : World := World.mk [(pathGDM, fcSample)] 1000

/-- The same world one second later (a back-to-back second call). -/
def wSampleLater : World := World.mk [(pathGDM, fcSample)] 1001

/-- The empty cache of a fresh `FileCache()`. -/
def cacheEmpty : FileCache := FileCache.mk [] [] []

/-- The entry `_load_file_data` builds for `Base_GDM` in `wSample`. -/
def dGDM : FileData :=
  FileData.mk (normalizeDf dfSample).toRecords (Metadata.mk 1000 3 3)

/-- A previously cached entry (loaded at instant 0). -/
def dOld : FileData := FileData.mk [] (Metadata.mk 0 0 0)

/-- Some fresh data handed to `update_cache`. -/
def dNew : FileData := FileData.mk [] (Metadata.mk 1000 0 0)

/-- A cache holding a stale entry for `pathGDM`: checked at instant 0
with fingerprint 999 (which is not the hash of any present file). -/
def cacheStale : FileCache :=
  FileCache.mk [(pathGDM, dOld)] [(pathGDM, 0)] [(pathGDM, 999)]

/-- A world at instant 1000 where `Base_GDM.xlsx` has vanished. -/
def wVanished : World := World.mk [] 1000

/-- A workbook with a single sheet named `Plan1` (no `RESUMO`). -/
def fcNoResumo : FileContent := FileContent.mk [1] [("Plan1", dfSample)]

/-- The resolved path of `Base_ID.xlsx` under the first root. -/
def pathID : String := "G:\\Meu Drive\\Arqs.Dia\\Base_ID.xlsx"

/-- A world where `Base_ID.xlsx` exists but lacks its required
`RESUMO` sheet. -/
def wNoResumo : World := World.mk [(pathID, fcNoResumo)] 1000

/-- A one-column table holding the reader's negative-infinity sentinel. -/
def dfNegInf : DataFrame :=
  DataFrame.mk [Column.mk "x" DType.other [Value.negInf]]

/-- A well-formed two-column table: a datetime column holding a
timestamp and a `NaT`, and a numeric column holding a number and a
`NaN`. -/
def dfDtSample : DataFrame :=
  DataFrame.mk
    [Column.mk "when" DType.datetime
      [Value.dt (DateTime.mk 2024 3 7 9 5 2), Value.naT],
     Column.mk "x" DType.other [Value.num 4, Value.nan]]

/-! ### Supporting lemmas -/

theorem alget_alset_self {α : Type} (l : List (String × α)) (k : String)
    (v : α) : alget (alset l k v) k = some v := by
  induction l with
  | nil => simp [alset, alget]
  | cons hd tl ih =>
    obtain ⟨k1, v1⟩ := hd
    by_cases h : k1 = k
    · simp [alset, h, alget]
    · simp [alset, h, alget, ih]

theorem find_file_in_fs_eq (w1 w2 : World) (h : w1.fs = w2.fs)
    (ps : List String) (fn : String) :
    find_file_in w1 ps fn = find_file_in w2 ps fn := by
  induction ps with
  | nil => rfl
  | cons p rest ih => simp [find_file_in, h, ih]

theorem find_file_fs_eq (w1 w2 : World) (h : w1.fs = w2.fs)
    (fn : String) : find_file w1 fn = find_file w2 fn :=
  find_file_in_fs_eq w1 w2 h BASE_PATHS fn

/-- Fresh-entry gate: an entry checked within the TTL is trusted. -/
theorem needs_refresh_recent (c : FileCache) (w : World) (p : String)
    (t : Nat) (ht : alget c.last_checked p = some t)
    (httl : w.now - t ≤ CACHE_TIME) : c.needs_refresh w p = false := by
  simp only [FileCache.needs_refresh, ht]
  simp [Nat.not_lt.mpr httl]

/-- Successful `update_cache`: all three dicts updated for the path. -/
theorem update_cache_ok (c : FileCache) (w : World) (p : String)
    (d : FileData) (h : Nat) (hh : calculate_file_hash w p = some h) :
    c.update_cache w p d =
      (true, FileCache.mk (alset c.data p d) (alset c.last_checked p w.now)
        (alset c.file_hashes p h)) := by
  simp [FileCache.update_cache, hh]

/-- Failed `update_cache`: `data` and `last_checked` are already
mutated, `file_hashes` is not. -/
theorem update_cache_fail (c : FileCache) (w : World) (p : String)
    (d : FileData) (hh : calculate_file_hash w p = none) :
    c.update_cache w p d =
      (false, FileCache.mk (alset c.data p d) (alset c.last_checked p w.now)
        c.file_hashes) := by
  simp [FileCache.update_cache, hh]

/-- Anatomy of a load that re-read the file (`refreshed = True`): the id
resolved, the gate was open, the read succeeded, and the entry for the
resolved path now holds the fresh data, check time and fingerprint. -/
theorem load_true_state (w : World) (c : FileCache) (file_id : String)
    (d : FileData) (c2 : FileCache)
    (h : _load_file_data w c file_id = (Except.ok (true, d), c2)) :
    ∃ cfg p hsh, alget FILE_CONFIG file_id = some cfg ∧
      find_file w cfg.filename = some p ∧
      calculate_file_hash w p = some hsh ∧
      alget c2.data p = some d ∧
      alget c2.last_checked p = some w.now ∧
      alget c2.file_hashes p = some hsh := by
  unfold _load_file_data at h
  split at h
  · simp at h
  case _ cfg hcfg =>
    split at h
    · simp at h
    case _ p hfind =>
      split at h
      case isTrue hneed =>
        split at h
        · simp at h
        case _ df0 hread =>
          simp only [] at h
          split at h
          case _ c2' hupd =>
            simp only [Prod.mk.injEq, Except.ok.injEq, true_and] at h
            obtain ⟨hdd, hc2⟩ := h
            rcases hhash : calculate_file_hash w p with _ | hsh
            · rw [update_cache_fail _ _ _ _ hhash] at hupd
              simp at hupd
            · rw [update_cache_ok _ _ _ _ hsh hhash] at hupd
              obtain ⟨-, hupd2⟩ := Prod.mk.injEq .. ▸ hupd
              refine ⟨cfg, p, hsh, hcfg, hfind, hhash, ?_, ?_, ?_⟩ <;>
                subst hc2 <;> rw [← hupd2] <;>
                simp [alget_alset_self, hdd]
          case _ c2' hupd =>
            simp at h
      case isFalse hneed =>
        split at h
        · simp only [Prod.mk.injEq, Except.ok.injEq] at h
          obtain ⟨⟨h1, -⟩, -⟩ := h
          simp at h1
        · simp at h

/-- Anatomy of a load served from the cache (`refreshed = False`): the
gate was closed and the stored entry is returned with the cache
untouched. -/
theorem load_false_state (w : World) (c : FileCache) (file_id : String)
    (d : FileData) (c2 : FileCache)
    (h : _load_file_data w c file_id = (Except.ok (false, d), c2)) :
    c2 = c ∧ ∃ cfg p, alget FILE_CONFIG file_id = some cfg ∧
      find_file w cfg.filename = some p ∧
      c.needs_refresh w p = false ∧ alget c.data p = some d := by
  unfold _load_file_data at h
  split at h
  · simp at h
  case _ cfg hcfg =>
    split at h
    · simp at h
    case _ p hfind =>
      split at h
      case isTrue hneed =>
        split at h
        · simp at h
        case _ df0 hread =>
          simp only [] at h
          split at h
          · simp only [Prod.mk.injEq, Except.ok.injEq] at h
            obtain ⟨⟨h1, -⟩, -⟩ := h
            simp at h1
          · simp at h
      case isFalse hneed =>
        split at h
        case _ d1 hdata =>
          simp only [Prod.mk.injEq, Except.ok.injEq, true_and] at h
          obtain ⟨hd1, hc2⟩ := h
          subst hd1; subst hc2
          exact ⟨rfl, cfg, p, hcfg, hfind,
            Bool.not_eq_true _ ▸ hneed, hdata⟩
        · simp at h

/-- Every failing load except a `hashError` leaves the cache exactly as
it was. -/
theorem load_error_preserves (w : World) (c : FileCache)
    (file_id : String) (e : LoadError) (c2 : FileCache)
    (h : _load_file_data w c file_id = (Except.error e, c2))
    (hne : e ≠ LoadError.hashError) : c2 = c := by
  unfold _load_file_data at h
  split at h
  · exact (Prod.mk.injEq .. ▸ h).2.symm
  · split at h
    · exact (Prod.mk.injEq .. ▸ h).2.symm
    · split at h
      · split at h
        · exact (Prod.mk.injEq .. ▸ h).2.symm
        · simp only [] at h
          split at h
          · simp at h
          · obtain ⟨he, -⟩ := Prod.mk.injEq .. ▸ h
            exact absurd (Except.error.injEq .. ▸ he.symm) hne
      · split at h
        · simp at h
        · exact (Prod.mk.injEq .. ▸ h).2.symm

/-- A failing read resolves the id and path first: a `readError` can
only arise after `FILE_CONFIG` and `find_file` both succeeded. -/
theorem load_read_error_state (w : World) (c : FileCache)
    (file_id : String) (e : ReadError) (c2 : FileCache)
    (h : _load_file_data w c file_id =
      (Except.error (LoadError.readError e), c2)) :
    c2 = c ∧ ∃ cfg p, alget FILE_CONFIG file_id = some cfg ∧
      find_file w cfg.filename = some p ∧
      safe_read_file w p cfg = Except.error e := by
  unfold _load_file_data at h
  split at h
  · simp at h
  case _ cfg hcfg =>
    split at h
    · simp at h
    case _ p hfind =>
      split at h
      case isTrue hneed =>
        split at h
        case _ e1 hread =>
          simp only [Prod.mk.injEq, Except.error.injEq] at h
          obtain ⟨he, hc2⟩ := h
          subst hc2
          exact ⟨rfl, cfg, p, hcfg, hfind,
            (LoadError.readError.injEq .. ▸ he) ▸ hread⟩
        case _ df0 hread =>
          simp only [] at h
          split at h
          · simp at h
          · simp at h
      case isFalse hneed =>
        split at h
        · simp at h
        · simp at h

/-- After any successful load, an immediate second load in a world with
the same files and at most `CACHE_TIME` later serves the same data from
the cache without re-reading, leaving the cache unchanged. -/
theorem load_ok_then_cached (w w2 : World) (c : FileCache)
    (file_id : String) (b : Bool) (d : FileData) (c2 : FileCache)
    (h : _load_file_data w c file_id = (Except.ok (b, d), c2))
    (hfs : w2.fs = w.fs) (hnow : w2.now = w.now ∨ b = true)
    (httl : w2.now - w.now ≤ CACHE_TIME) :
    _load_file_data w2 c2 file_id = (Except.ok (false, d), c2) := by
  cases b with
  | true =>
    obtain ⟨cfg, p, hsh, hcfg, hfind, hhash, hdata, hlast, hfp⟩ :=
      load_true_state w c file_id d c2 h
    have hfind2 : find_file w2 cfg.filename = some p :=
      (find_file_fs_eq w2 w hfs cfg.filename) ▸ hfind
    have hneed : c2.needs_refresh w2 p = false :=
      needs_refresh_recent c2 w2 p w.now hlast httl
    unfold _load_file_data
    simp [hcfg, hfind2, hneed, hdata]
  | false =>
    obtain ⟨hc2, cfg, p, hcfg, hfind, hneed, hdata⟩ :=
      load_false_state w c file_id d c2 h
    rcases hnow with hnow | hnow
    · subst hc2
      have hw : w2 = w := by
        cases w2; cases w
        simp only [World.mk.injEq]
        exact ⟨hfs, hnow⟩
      rw [hw]
      exact h
    · simp at hnow

theorem toRecords_length (df : DataFrame) :
    df.toRecords.length = df.nrows := by
  simp [DataFrame.toRecords]

/-- A freshly loaded entry's `row_count` is the length of its record
list, and its `last_updated` stamp is the load instant. -/
theorem load_true_rowcount (w : World) (c : FileCache) (file_id : String)
    (d : FileData) (c2 : FileCache)
    (h : _load_file_data w c file_id = (Except.ok (true, d), c2)) :
    d.metadata.row_count = d.data.length ∧
      d.metadata.last_updated = w.now := by
  unfold _load_file_data at h
  split at h
  · simp at h
  · split at h
    · simp at h
    · split at h
      case isTrue hneed =>
        split at h
        · simp at h
        case _ df0 hread =>
          simp only [] at h
          split at h
          case _ c2' hupd =>
            simp only [Prod.mk.injEq, Except.ok.injEq, true_and] at h
            obtain ⟨hdd, -⟩ := h
            rw [← hdd]
            exact ⟨(toRecords_length _).symm, rfl⟩
          · simp at h
      case isFalse hneed =>
        split at h
        · simp only [Prod.mk.injEq, Except.ok.injEq] at h
          obtain ⟨⟨h1, -⟩, -⟩ := h
          simp at h1
        · simp at h

/-- Anatomy of a successful `/data/{file_id}` call: the response is the
windowed records and the metadata of exactly the entry delivered by the
inline `_load_file_data`, and the handler's cache state is the one the
inline load produced. -/
theorem get_ok_state (w : World) (c : FileCache) (file_id : String)
    (skiprows : Int) (nrows : Option Int) (r : ApiResponse)
    (c2 : FileCache)
    (h : get_file_data w c file_id skiprows nrows = (Except.ok r, c2)) :
    ∃ b d, _load_file_data w c file_id = (Except.ok (b, d), c2) ∧
      r = ApiResponse.mk (pdWindow skiprows nrows d.data) d.metadata := by
  unfold get_file_data at h
  split at h
  · simp at h
  · split at h
    · simp at h
    · split at h
      · simp at h
      case _ b d c2' hload =>
        simp only [Prod.mk.injEq, Except.ok.injEq] at h
        obtain ⟨hr, hc2⟩ := h
        exact ⟨b, d, hc2 ▸ hload, hr.symm⟩

/-- The empty cache is well formed. -/
theorem cacheEmpty_wf : CacheWF cacheEmpty := by
  intro p d h
  simp [cacheEmpty, alget] at h

/-- `dfDtSample` is a well-formed reader frame. -/
theorem dfDtSample_wf : WellFormedDf dfDtSample := by
  intro col hcol
  simp only [dfDtSample, List.mem_cons, List.not_mem_nil, or_false] at hcol
  rcases hcol with h | h <;> subst h
  · constructor
    · intro hdt v hv
      simp only [List.mem_cons, List.not_mem_nil, or_false] at hv
      rcases hv with h | h <;> subst h
      · exact Or.inl ⟨DateTime.mk 2024 3 7 9 5 2, rfl⟩
      · exact Or.inr rfl
    · intro hd
      simp at hd
  · constructor
    · intro hdt
      simp at hdt
    · intro hd v hv
      simp only [List.mem_cons, List.not_mem_nil, or_false] at hv
      rcases hv with h | h <;> subst h <;> intro t <;> simp

/-- A `httpNotFound` load failure means the id resolved but no root
held the file, and the cache is untouched. -/
theorem load_notfound_state (w : World) (c : FileCache)
    (file_id : String) (c2 : FileCache)
    (h : _load_file_data w c file_id =
      (Except.error LoadError.httpNotFound, c2)) :
    c2 = c ∧ ∃ cfg, alget FILE_CONFIG file_id = some cfg ∧
      find_file w cfg.filename = none := by
  unfold _load_file_data at h
  split at h
  · simp at h
  case _ cfg hcfg =>
    split at h
    case _ hfind =>
      obtain ⟨-, hc2⟩ := Prod.mk.injEq .. ▸ h
      exact ⟨hc2.symm, cfg, hcfg, hfind⟩
    case _ p hfind =>
      split at h
      · split at h
        · simp at h
        · simp only [] at h
          split at h
          · simp at h
          · simp at h
      · split at h
        · simp at h
        · simp at h


/-! ### Claim theorems -/

/-- C1: `needs_refresh` returns true when no cache entry exists for the
path; within the TTL it returns false without touching the file system
(the result is `false` for every file-system state); once the TTL has
elapsed it computes the file's current content hash and returns true
iff it differs from the stored fingerprint, and returns true (fail-open)
when the hash computation itself fails. -/
theorem needs_refresh_spec (c : FileCache) (w : World) (p : String) :
    (alget c.last_checked p = none → c.needs_refresh w p = true) ∧
    (∀ t, alget c.last_checked p = some t → w.now - t ≤ CACHE_TIME →
      ∀ fs1, FileCache.needs_refresh c (World.mk fs1 w.now) p = false) ∧
    (∀ t, alget c.last_checked p = some t → CACHE_TIME < w.now - t →
      (∀ h, calculate_file_hash w p = some h →
        c.needs_refresh w p = decide (some h ≠ alget c.file_hashes p)) ∧
      (calculate_file_hash w p = none → c.needs_refresh w p = true)) := by
  refine ⟨?_, ?_, ?_⟩
  · intro h
    simp [FileCache.needs_refresh, h]
  · intro t ht httl fs1
    simp only [FileCache.needs_refresh, ht]
    simp [Nat.not_lt.mpr httl]
  · intro t ht httl
    constructor
    · intro h hh
      simp [FileCache.needs_refresh, ht, httl, hh]
    · intro hh
      simp [FileCache.needs_refresh, ht, httl, hh]

/-- C1 witness: a missing entry forces a refresh; a stale entry whose
file has vanished fails open to a refresh; a fresh entry is trusted
even when the file system is empty. -/
theorem needs_refresh_spec_witness :
    FileCache.needs_refresh cacheEmpty wSample pathGDM = true ∧
    FileCache.needs_refresh cacheStale wVanished pathGDM = true ∧
    FileCache.needs_refresh cacheStale (World.mk [] 100) pathGDM = false := by
  refine ⟨?_, ?_, ?_⟩
  · exact (needs_refresh_spec cacheEmpty wSample pathGDM).1 (by decide)
  · exact ((needs_refresh_spec cacheStale wVanished pathGDM).2.2 0
      (by decide) (by decide)).2 (by decide)
  · exact (needs_refresh_spec cacheStale (World.mk [] 100) pathGDM).2.1 0
      (by decide) (by decide) []

/-- C2 counterexample: the claim says two back-to-back `forceRefresh`
calls both read the file from disk.  The `/refresh` endpoint schedules
`_load_file_data`, which consults `needs_refresh`: on the concrete
world `wSample` the first call re-reads (`refreshed = True`) but the
immediately following call one second later returns the cached entry
with `refreshed = False`, reading nothing, and the cache (fingerprint
included) is unchanged by it. -/
theorem force_refresh_second_call_no_read :
    (_load_file_data wSample cacheEmpty "Base_GDM").1 =
      Except.ok (true, dGDM) ∧
    (_load_file_data wSampleLater
      (_load_file_data wSample cacheEmpty "Base_GDM").2 "Base_GDM").1 =
      Except.ok (false, dGDM) ∧
    (_load_file_data wSampleLater
      (_load_file_data wSample cacheEmpty "Base_GDM").2 "Base_GDM").2 =
      (_load_file_data wSample cacheEmpty "Base_GDM").2 := by
  decide

/-- C2 amended: `forceRefresh` runs the same gated load pipeline as
`get`: after a call that did read the file, a second back-to-back call
(same files, at most `CACHE_TIME` later) does not read again — it
returns the cached entry with `refreshed = False` and leaves the cache,
fingerprint included, identical. -/
theorem force_refresh_uses_gate (w w2 : World) (c : FileCache)
    (file_id : String) (d : FileData) (c2 : FileCache)
    (h : _load_file_data w c file_id = (Except.ok (true, d), c2))
    (hfs : w2.fs = w.fs) (httl : w2.now - w.now ≤ CACHE_TIME) :
    _load_file_data w2 c2 file_id = (Except.ok (false, d), c2) :=
  load_ok_then_cached w w2 c file_id true d c2 h hfs (Or.inr rfl) httl

/-- C2 amended witness, at the concrete back-to-back pair of calls. -/
theorem force_refresh_uses_gate_witness :
    _load_file_data wSampleLater
      (_load_file_data wSample cacheEmpty "Base_GDM").2 "Base_GDM" =
      (Except.ok (false, dGDM),
        (_load_file_data wSample cacheEmpty "Base_GDM").2) :=
  force_refresh_uses_gate wSample wSampleLater cacheEmpty "Base_GDM"
    dGDM (_load_file_data wSample cacheEmpty "Base_GDM").2
    (by decide) (by decide) (by decide)

/-- C3: when the read pipeline fails — missing required section or any
other read failure, or a file missing from every root — the previous
cache entry (data, `last_checked`, fingerprint: the whole cache) is
retained unchanged, and the failure is surfaced to the `get` caller as
an error response, never a silent null or silent stale fallback. -/
theorem load_failure_preserves_cache (w : World) (c : FileCache)
    (file_id : String) :
    (∀ e c2, _load_file_data w c file_id =
        (Except.error (LoadError.readError e), c2) →
      c2 = c ∧ ∀ sk nr, (get_file_data w c file_id sk nr).1 =
        Except.error (ApiError.http500 (LoadError.readError e))) ∧
    (∀ c2, _load_file_data w c file_id =
        (Except.error LoadError.httpNotFound, c2) →
      c2 = c ∧ ∀ sk nr, (get_file_data w c file_id sk nr).1 =
        Except.error ApiError.http404) := by
  constructor
  · intro e c2 h
    obtain ⟨hc2, cfg, p, hcfg, hfind, -⟩ :=
      load_read_error_state w c file_id e c2 h
    subst hc2
    refine ⟨rfl, ?_⟩
    intro sk nr
    simp [get_file_data, hcfg, hfind, h]
  · intro c2 h
    obtain ⟨hc2, cfg, hcfg, hfind⟩ :=
      load_notfound_state w c file_id c2 h
    subst hc2
    refine ⟨rfl, ?_⟩
    intro sk nr
    simp [get_file_data, hcfg, hfind]

/-- C3 witness: `Base_ID` requires sheet `RESUMO`; on a file holding
only `Plan1` the load fails, the cache is untouched, and the `get`
caller receives the wrapped error. -/
theorem load_failure_preserves_cache_witness :
    (_load_file_data wNoResumo cacheEmpty "Base_ID").2 = cacheEmpty ∧
    (get_file_data wNoResumo cacheEmpty "Base_ID" 0 none).1 =
      Except.error (ApiError.http500 (LoadError.readError
        (ReadError.missingSheet "RESUMO" ["Plan1"]))) := by
  have h := (load_failure_preserves_cache wNoResumo cacheEmpty "Base_ID").1
    (ReadError.missingSheet "RESUMO" ["Plan1"])
    (_load_file_data wNoResumo cacheEmpty "Base_ID").2 (by decide)
  exact ⟨h.1, h.2 0 none⟩

/-- C4 counterexample: the claim says `getData` returns whatever is
currently cached, with its triggered refresh visible only to a later
call.  On `cacheStale` (cached records `[]`, checked at instant 0) in
`wSample` (TTL elapsed, file changed), the handler's response carries
the three freshly read records — not the cached empty list — and the
cache entry is replaced during the call itself. -/
theorem get_data_not_cached_cex :
    alget cacheStale.data pathGDM = some dOld ∧
    (get_file_data wSample cacheStale "Base_GDM" 0 none).1 =
      Except.ok (ApiResponse.mk dGDM.data dGDM.metadata) ∧
    dGDM.data ≠ dOld.data ∧
    alget (get_file_data wSample cacheStale "Base_GDM" 0 none).2.data
      pathGDM = some dGDM := by
  decide

/-- C4 amended: `get_file_data` schedules a background refresh task but
also awaits the load pipeline inline: a successful response is built
from the entry that inline load returns (fresh data when the entry was
stale), the handler leaves the cache in the inline load's post-state,
and the scheduled background task, running afterwards, is a no-op. -/
theorem get_data_inline_refresh (w : World) (c : FileCache)
    (file_id : String) (sk : Int) (nr : Option Int) (r : ApiResponse)
    (c2 : FileCache)
    (h : get_file_data w c file_id sk nr = (Except.ok r, c2)) :
    ∃ b d, _load_file_data w c file_id = (Except.ok (b, d), c2) ∧
      r = ApiResponse.mk (pdWindow sk nr d.data) d.metadata ∧
      _load_file_data w c2 file_id = (Except.ok (false, d), c2) := by
  obtain ⟨b, d, hload, hr⟩ := get_ok_state w c file_id sk nr r c2 h
  refine ⟨b, d, hload, hr, ?_⟩
  exact load_ok_then_cached w w c file_id b d c2 hload rfl
    (Or.inl rfl) (by simp)

/-- C4 amended witness: after the concrete stale-cache call, the
scheduled background task leaves the cache where the inline load put
it. -/
theorem get_data_inline_refresh_witness :
    (_load_file_data wSample
      (get_file_data wSample cacheStale "Base_GDM" 0 none).2
      "Base_GDM").2 =
      (get_file_data wSample cacheStale "Base_GDM" 0 none).2 := by
  obtain ⟨b, d, -, -, hbg⟩ := get_data_inline_refresh wSample cacheStale
    "Base_GDM" 0 none (ApiResponse.mk dGDM.data dGDM.metadata)
    (get_file_data wSample cacheStale "Base_GDM" 0 none).2 (by decide)
  rw [hbg]

/-- C5 counterexample: for an unconfigured id the handler does not fail
with the 404 `NotFound`: `FILE_CONFIG[file_id]` raises an uncaught
`KeyError` (a generic 500 Internal Server Error). -/
theorem get_unknown_id_not_notfound :
    (get_file_data wSample cacheEmpty "UNKNOWN" 0 none).1 =
      Except.error (ApiError.keyError "UNKNOWN") ∧
    (get_file_data wSample cacheEmpty "UNKNOWN" 0 none).1 ≠
      Except.error ApiError.http404 := by
  decide

/-- C5 amended: an unconfigured id fails with an uncaught `KeyError`
(not the 404 `NotFound`); a configured id whose file exists in no
candidate root fails with the 404; and `find_file` resolves to the
first existing candidate in configured root order. -/
theorem get_notfound_behavior (w : World) (c : FileCache) (id : String)
    (sk : Int) (nr : Option Int) :
    (alget FILE_CONFIG id = none →
      (get_file_data w c id sk nr).1 =
        Except.error (ApiError.keyError id)) ∧
    (∀ cfg, alget FILE_CONFIG id = some cfg →
      find_file w cfg.filename = none →
      (get_file_data w c id sk nr).1 = Except.error ApiError.http404) ∧
    (∀ fn, (alget w.fs (joinPath "G:\\Meu Drive\\Arqs.Dia" fn)).isSome →
      find_file w fn = some (joinPath "G:\\Meu Drive\\Arqs.Dia" fn)) ∧
    (∀ fn, alget w.fs (joinPath "G:\\Meu Drive\\Arqs.Dia" fn) = none →
      (alget w.fs (joinPath "H:\\Meu Drive\\Arqs.Dia" fn)).isSome →
      find_file w fn = some (joinPath "H:\\Meu Drive\\Arqs.Dia" fn)) := by
  refine ⟨?_, ?_, ?_, ?_⟩
  · intro h
    simp [get_file_data, h]
  · intro cfg hcfg hfind
    simp [get_file_data, hcfg, hfind]
  · intro fn h
    simp [find_file, BASE_PATHS, find_file_in, h]
  · intro fn h1 h2
    simp [find_file, BASE_PATHS, find_file_in, h1, h2]

/-- C5 amended witness: the three behaviors at concrete inputs. -/
theorem get_notfound_behavior_witness :
    (get_file_data wSample cacheEmpty "NOPE" 0 none).1 =
      Except.error (ApiError.keyError "NOPE") ∧
    (get_file_data wVanished cacheEmpty "Base_GDM" 0 none).1 =
      Except.error ApiError.http404 ∧
    find_file wSample "Base_GDM.xlsx" =
      some (joinPath "G:\\Meu Drive\\Arqs.Dia" "Base_GDM.xlsx") := by
  refine ⟨?_, ?_, ?_⟩
  · exact (get_notfound_behavior wSample cacheEmpty "NOPE" 0 none).1
      (by decide)
  · exact (get_notfound_behavior wVanished cacheEmpty "Base_GDM" 0 none).2.1
      (FileConfigEntry.mk "Base_GDM.xlsx" FileKind.excel none none none none)
      (by decide) (by decide)
  · exact (get_notfound_behavior wSample cacheEmpty "Base_GDM" 0 none).2.2.1
      "Base_GDM.xlsx" (by decide)

/-- C6 counterexample: when hashing fails inside `update_cache` (file
vanished between the read and the hash), `last_checked` has already
been bumped (0 → 1000) while the stale fingerprint 999 is retained: a
stale fingerprint paired with a freshly updated `lastCheckedAt`. -/
theorem update_cache_stale_fingerprint_cex :
    calculate_file_hash wVanished pathGDM = none ∧
    (FileCache.update_cache cacheStale wVanished pathGDM dNew).1 = false ∧
    alget (FileCache.update_cache cacheStale wVanished pathGDM
      dNew).2.last_checked pathGDM = some 1000 ∧
    alget (FileCache.update_cache cacheStale wVanished pathGDM
      dNew).2.file_hashes pathGDM = some 999 ∧
    alget cacheStale.last_checked pathGDM = some 0 ∧
    alget cacheStale.file_hashes pathGDM = some 999 := by
  decide

/-- C6 amended: when hashing succeeds, `update_cache` stores the hash
of the file's bytes as of the new `last_checked` instant, so the
fingerprint/check-time invariant holds for every successful update;
when hashing fails, `data` and `last_checked` are nevertheless updated
while the previous fingerprint is retained. -/
theorem update_cache_fingerprint (c : FileCache) (w : World)
    (p : String) (d : FileData) :
    (∀ fc, alget w.fs p = some fc →
      (c.update_cache w p d).1 = true ∧
      alget (c.update_cache w p d).2.file_hashes p =
        some (md5Hex fc.bytes) ∧
      alget (c.update_cache w p d).2.last_checked p = some w.now) ∧
    (alget w.fs p = none →
      (c.update_cache w p d).1 = false ∧
      (c.update_cache w p d).2.file_hashes = c.file_hashes ∧
      alget (c.update_cache w p d).2.last_checked p = some w.now ∧
      alget (c.update_cache w p d).2.data p = some d) := by
  constructor
  · intro fc hfc
    have hh : calculate_file_hash w p = some (md5Hex fc.bytes) := by
      simp [calculate_file_hash, hfc]
    rw [update_cache_ok c w p d (md5Hex fc.bytes) hh]
    exact ⟨rfl, alget_alset_self .., alget_alset_self ..⟩
  · intro hfc
    have hh : calculate_file_hash w p = none := by
      simp [calculate_file_hash, hfc]
    rw [update_cache_fail c w p d hh]
    exact ⟨rfl, rfl, alget_alset_self .., alget_alset_self ..⟩

/-- C6 amended witness: a successful update pairs the fresh fingerprint
with the fresh check time; the failing update at the same path keeps
the old fingerprint. -/
theorem update_cache_fingerprint_witness :
    alget (FileCache.update_cache cacheEmpty wSample pathGDM
      dNew).2.file_hashes pathGDM = some (md5Hex fcSample.bytes) ∧
    alget (FileCache.update_cache cacheEmpty wSample pathGDM
      dNew).2.last_checked pathGDM = some 1000 ∧
    (FileCache.update_cache cacheStale wVanished pathGDM
      dNew).2.file_hashes = cacheStale.file_hashes := by
  have h1 := (update_cache_fingerprint cacheEmpty wSample pathGDM dNew).1
    fcSample (by decide)
  have h2 := (update_cache_fingerprint cacheStale wVanished pathGDM dNew).2
    (by decide)
  exact ⟨h1.2.1, h1.2.2, h2.2.1⟩

/-- C8: for an excel config with a required sheet, reading a file that
lacks the sheet fails with the error enumerating exactly the sheet
names that do exist (never falling back to another sheet); when the
sheet is present, exactly that sheet is read. -/
theorem safe_read_required_sheet (w : World) (p : String)
    (cfg : FileConfigEntry) (fc : FileContent) (s : String)
    (hfs : alget w.fs p = some fc) (htype : cfg.type = FileKind.excel)
    (hreq : cfg.required_sheet = some s) :
    (alget fc.sheets s = none →
      safe_read_file w p cfg = Except.error
        (ReadError.missingSheet s (fc.sheets.map Prod.fst))) ∧
    (∀ df, alget fc.sheets s = some df →
      safe_read_file w p cfg = Except.ok df) := by
  constructor
  · intro h1
    simp [safe_read_file, hfs, htype, hreq, h1]
  · intro df h1
    simp [safe_read_file, hfs, htype, hreq, h1]

/-- C8 witness: `Base_ID`'s required `RESUMO` is absent from a file
holding only `Plan1` (error lists `Plan1`); a config requiring
`Sheet1` reads exactly that sheet from `fcSample`. -/
theorem safe_read_required_sheet_witness :
    safe_read_file wNoResumo pathID
      (FileConfigEntry.mk "Base_ID.xlsx" FileKind.excel (some "RESUMO")
        none none none) =
      Except.error (ReadError.missingSheet "RESUMO" ["Plan1"]) ∧
    safe_read_file wSample pathGDM
      (FileConfigEntry.mk "Base_GDM.xlsx" FileKind.excel (some "Sheet1")
        none none none) = Except.ok dfSample := by
  constructor
  · exact (safe_read_required_sheet wNoResumo pathID
      (FileConfigEntry.mk "Base_ID.xlsx" FileKind.excel (some "RESUMO")
        none none none) fcNoResumo "RESUMO"
      (by decide) (by decide) (by decide)).1 (by decide)
  · exact (safe_read_required_sheet wSample pathGDM
      (FileConfigEntry.mk "Base_GDM.xlsx" FileKind.excel (some "Sheet1")
        none none none) fcSample "Sheet1"
      (by decide) (by decide) (by decide)).2 dfSample (by decide)

theorem getD_mem_or_default (l : List Value) (i : Nat) :
    l.getD i Value.null ∈ l ∨ l.getD i Value.null = Value.null := by
  by_cases h : i < l.length
  · left
    rw [List.getD_eq_getElem l Value.null h]
    exact List.getElem_mem h
  · right
    exact List.getD_eq_default l Value.null (Nat.le_of_not_lt h)

/-- Each normalized column comes from a source column of the same name
and dtype, with its values mapped through replacement (and datetime
formatting when the column is datetime-dtyped). -/
theorem norm_col_mem (df : DataFrame) (col : Column)
    (h : col ∈ (normalizeDf df).cols) :
    ∃ c ∈ df.cols, col.name = c.name ∧ col.dtype = c.dtype ∧
      ((c.dtype = DType.datetime ∧
        col.values = (c.values.map replaceNulls).map strftimeCell) ∨
       (c.dtype ≠ DType.datetime ∧
        col.values = c.values.map replaceNulls)) := by
  simp only [normalizeDf, formatDatetimeCols, replaceDf, List.map_map,
    List.mem_map, Function.comp] at h
  obtain ⟨c, hc, hcol⟩ := h
  by_cases hdt : c.dtype = DType.datetime
  · refine ⟨c, hc, ?_⟩
    rw [← hcol]
    simp [hdt]
  · refine ⟨c, hc, ?_⟩
    rw [← hcol]
    simp [hdt]

/-- Any value of a normalized well-formed frame is none of the four
replaced sentinels and is never a native temporal value. -/
theorem norm_value_clean (df : DataFrame) (hwf : WellFormedDf df)
    (col : Column) (hcol : col ∈ (normalizeDf df).cols)
    (v : Value) (hv : v ∈ col.values) :
    v ≠ Value.na ∧ v ≠ Value.nan ∧ v ≠ Value.naT ∧ v ≠ Value.inf ∧
      ∀ t, v ≠ Value.dt t := by
  obtain ⟨c, hc, -, -, hcase⟩ := norm_col_mem df col hcol
  rcases hcase with ⟨hdt, hvals⟩ | ⟨hdt, hvals⟩
  · rw [hvals] at hv
    simp only [List.map_map, List.mem_map, Function.comp] at hv
    obtain ⟨v0, hv0, hv⟩ := hv
    rcases (hwf c hc).1 hdt v0 hv0 with ⟨t, ht⟩ | ht
    · subst ht
      rw [← hv]
      simp [replaceNulls, strftimeCell]
    · subst ht
      rw [← hv]
      simp [replaceNulls, strftimeCell]
  · rw [hvals] at hv
    simp only [List.mem_map] at hv
    obtain ⟨v0, hv0, hv⟩ := hv
    have hother : c.dtype = DType.other := by
      cases hd : c.dtype
      · exact absurd hd hdt
      · rfl
    have hnodt := (hwf c hc).2 hother v0 hv0
    rw [← hv]
    cases v0 with
    | dt t => exact absurd rfl (hnodt t)
    | str s => simp [replaceNulls]
    | num n => simp [replaceNulls]
    | bool b => simp [replaceNulls]
    | na => simp [replaceNulls]
    | nan => simp [replaceNulls]
    | naT => simp [replaceNulls]
    | inf => simp [replaceNulls]
    | negInf => simp [replaceNulls]
    | null => simp [replaceNulls]

/-- C7 counterexample: negative infinity is a null-like sentinel (an
infinite value) produced by the reader, yet the replacement list
(`pd.NA, pd.NaT, nan, +inf`) does not contain it: the record handed to
consumers still carries the sentinel instead of the canonical null. -/
theorem normalize_neginf_survives :
    (normalizeDf dfNegInf).toRecords = [[("x", Value.negInf)]] ∧
    Value.negInf ≠ Value.null := by
  decide

/-- C7 amended: on a well-formed reader frame, normalization maps the
`NA`, `NaN`, `NaT` and positive-infinity sentinels to the canonical
null and renders every datetime-dtyped column to the fixed
`YYYY-MM-DD HH:MM:SS` pattern, so no native temporal value reaches any
record; negative infinity is not in the replacement list and is the
one sentinel that can survive. -/
theorem normalize_canonical (df : DataFrame) (hwf : WellFormedDf df) :
    (∀ r ∈ (normalizeDf df).toRecords, ∀ kv ∈ r,
      kv.2 ≠ Value.na ∧ kv.2 ≠ Value.nan ∧ kv.2 ≠ Value.naT ∧
      kv.2 ≠ Value.inf ∧ ∀ t, kv.2 ≠ Value.dt t) ∧
    (∀ col ∈ (normalizeDf df).cols, col.dtype = DType.datetime →
      ∀ v ∈ col.values,
        v = Value.null ∨ ∃ t, v = Value.str (strftimeYmdHMS t)) := by
  constructor
  · intro r hr kv hkv
    simp only [DataFrame.toRecords, List.mem_map] at hr
    obtain ⟨i, -, hr⟩ := hr
    rw [← hr] at hkv
    simp only [List.mem_map] at hkv
    obtain ⟨col, hcol, hkv⟩ := hkv
    rw [← hkv]
    rcases getD_mem_or_default col.values i with hmem | hdef
    · exact norm_value_clean df hwf col hcol _ hmem
    · rw [hdef]
      refine ⟨by simp, by simp, by simp, by simp, ?_⟩
      intro t
      simp
  · intro col hcol hdt v hv
    obtain ⟨c, hc, -, hdty, hcase⟩ := norm_col_mem df col hcol
    rcases hcase with ⟨hcdt, hvals⟩ | ⟨hcdt, hvals⟩
    · rw [hvals] at hv
      simp only [List.map_map, List.mem_map, Function.comp] at hv
      obtain ⟨v0, hv0, hv⟩ := hv
      rcases (hwf c hc).1 hcdt v0 hv0 with ⟨t, ht⟩ | ht
      · subst ht
        rw [← hv]
        exact Or.inr ⟨t, rfl⟩
      · subst ht
        rw [← hv]
        exact Or.inl rfl
    · rw [hdty] at hdt
      exact absurd hdt hcdt

/-- C7 amended witness: `dfDtSample` (a datetime column with a
timestamp and a `NaT`, a numeric column with a number and a `NaN`)
normalizes to fixed-pattern strings and canonical nulls, and its first
cell is neither a sentinel nor a native temporal value. -/
theorem normalize_canonical_witness :
    (normalizeDf dfDtSample).toRecords =
      [[("when", Value.str "2024-03-07 09:05:02"), ("x", Value.num 4)],
       [("when", Value.null), ("x", Value.null)]] ∧
    (((normalizeDf dfDtSample).toRecords.getD 0 []).getD 0
        ("", Value.null)).2 ≠ Value.naT ∧
    (∀ t, (((normalizeDf dfDtSample).toRecords.getD 0 []).getD 0
        ("", Value.null)).2 ≠ Value.dt t) := by
  refine ⟨by decide, ?_, ?_⟩
  · exact ((normalize_canonical dfDtSample dfDtSample_wf).1
      ((normalizeDf dfDtSample).toRecords.getD 0 []) (by decide)
      (((normalizeDf dfDtSample).toRecords.getD 0 []).getD 0
        ("", Value.null)) (by decide)).2.2.1
  · exact ((normalize_canonical dfDtSample dfDtSample_wf).1
      ((normalizeDf dfDtSample).toRecords.getD 0 []) (by decide)
      (((normalizeDf dfDtSample).toRecords.getD 0 []).getD 0
        ("", Value.null)) (by decide)).2.2.2.2

/-- C10: a successful `get_file_data` response carries the metadata of
the cached entry for the full dataset, unaffected by the skip/limit
window: the window changes only the records field, and `row_count` is
the full cached dataset's length (not the number of records actually
returned). -/
theorem get_metadata_window_independent (w : World) (c : FileCache)
    (file_id : String) (sk : Int) (nr : Option Int) (r : ApiResponse)
    (c2 : FileCache) (b : Bool) (d : FileData) (hwf : CacheWF c)
    (hload : _load_file_data w c file_id = (Except.ok (b, d), c2))
    (h : get_file_data w c file_id sk nr = (Except.ok r, c2)) :
    r.metadata = d.metadata ∧ r.data = pdWindow sk nr d.data ∧
      r.metadata.row_count = d.data.length := by
  obtain ⟨b', d', hload', hr⟩ := get_ok_state w c file_id sk nr r c2 h
  rw [hload] at hload'
  simp only [Prod.mk.injEq, Except.ok.injEq, and_true] at hload'
  obtain ⟨-, hd⟩ := hload'
  subst hd
  subst hr
  refine ⟨rfl, rfl, ?_⟩
  cases b with
  | true => exact (load_true_rowcount w c file_id d c2 hload).1
  | false =>
    obtain ⟨-, cfg, p, -, -, -, hdata⟩ :=
      load_false_state w c file_id d c2 hload
    exact hwf p d hdata

/-- C10 witness: with `skiprows = 1, nrows = 1` only the middle record
is returned, yet the metadata is the full entry's (`row_count = 3`,
which is the full cached dataset's length, not 1). -/
theorem get_metadata_window_independent_witness :
    (ApiResponse.mk [[("x", Value.num 2)]] (Metadata.mk 1000 3 3)).metadata =
      dGDM.metadata ∧
    (ApiResponse.mk [[("x", Value.num 2)]] (Metadata.mk 1000 3 3)).data =
      pdWindow 1 (some 1) dGDM.data ∧
    (ApiResponse.mk [[("x", Value.num 2)]]
      (Metadata.mk 1000 3 3)).metadata.row_count = dGDM.data.length :=
  get_metadata_window_independent wSample cacheEmpty "Base_GDM" 1 (some 1)
    (ApiResponse.mk [[("x", Value.num 2)]] (Metadata.mk 1000 3 3))
    (get_file_data wSample cacheEmpty "Base_GDM" 1 (some 1)).2 true dGDM
    cacheEmpty_wf (by decide) (by decide)
